import Mathlib

/-
Verification of the PlacementSprint orchestration layer (src/agent.py).

Shallow embedding notes:
- pydantic models become Lean structures; the field constraints declared with
  `Field(...)` become explicit validators (`validateActionItem`,
  `validateAgentResponse`, `validateIntent`) from raw payloads, modelling the
  Schema Validator that pydantic / pydantic_ai runs on every model output.
- Python floats (confidence scores, backoff delays) are modelled by ℚ; the
  values involved (0.55, 2.0, 4.0, 6.0) are exact in both representations.
- An LLM agent (`Agent.run`) is modelled as an oracle
  `String → Nat → Except Nat Raw...`: given the prompt and the (1-based)
  attempt index it either fails with an opaque provider error code or yields
  a raw payload, which is then schema-validated.
- The asynchronous control flow of `Orchestrator` is deterministic given the
  oracles, so it is embedded as pure state passing; calls made and sleeps
  performed are recorded in an explicit `Trace`.
-/

namespace PlacementSprint

/-- Role of a chat message author (the `role: Literal["user", "assistant"]`
field of `ChatMessage` in src/agent.py). -/
inductive Role
  | user
  | assistant
deriving DecidableEq

/-- One turn in a conversation (`class ChatMessage` in src/agent.py). The
`min_length=1, max_length=8000` bound on `content` lives in `ChatMessage.Valid`. -/
structure ChatMessage where
  role : Role
  content : String
deriving DecidableEq

/-- Field constraints of `ChatMessage` (content 1..8000 chars). -/
def ChatMessage.Valid (m : ChatMessage) : Prop :=
  1 ≤ m.content.length ∧ m.content.length ≤ 8000

/-- Task mode (`Mode = Literal["auto", "plan", "resume", "interview"]`). -/
inductive Mode
  | auto
  | plan
  | resume
  | interview
deriving DecidableEq

/-- Priority enum of an action item (`Literal["low", "med", "high"]`). -/
inductive Priority
  | low
  | med
  | high
deriving DecidableEq

/-- `class ActionItem` of src/agent.py (validated form). -/
structure ActionItem where
  title : String
  why : String
  eta_minutes : Int
  priority : Priority
deriving DecidableEq

/-- `class AgentResponse` of src/agent.py (validated form). -/
structure AgentResponse where
  reply_markdown : String
  action_items : List ActionItem
  follow_up_questions : List String
  warnings : List String
deriving DecidableEq

/-- `class Intent` of src/agent.py (validated form). -/
structure Intent where
  intent : Mode
  confidence : ℚ
  rationale : String
deriving DecidableEq

/-- Field constraints of `ActionItem`: `title` 1..140 chars, `why` 1..200
chars, `eta_minutes` in [1, 240] (`priority` is an enum by construction). -/
def ActionItem.Valid (a : ActionItem) : Prop :=
  1 ≤ a.title.length ∧ a.title.length ≤ 140 ∧
  1 ≤ a.why.length ∧ a.why.length ≤ 200 ∧
  1 ≤ a.eta_minutes ∧ a.eta_minutes ≤ 240

instance : DecidablePred ActionItem.Valid := fun a => by
  unfold ActionItem.Valid
  exact inferInstance

/-- Field constraints of `AgentResponse`: `reply_markdown` 1..12000 chars and
every action item valid (the three list fields carry no element bounds
besides those of `ActionItem`). -/
def AgentResponse.Valid (r : AgentResponse) : Prop :=
  1 ≤ r.reply_markdown.length ∧ r.reply_markdown.length ≤ 12000 ∧
  ∀ a ∈ r.action_items, a.Valid

instance : DecidablePred AgentResponse.Valid := fun r => by
  unfold AgentResponse.Valid
  exact inferInstance

/-- Raw (unvalidated) `ActionItem` payload as a provider may return it:
the priority arrives as a plain string. -/
structure RawActionItem where
  title : String
  why : String
  eta_minutes : Int
  priority : String
deriving DecidableEq

/-- Raw (unvalidated) `AgentResponse` payload. The three list fields are
optional: pydantic fills an absent field from `default_factory=list`. -/
structure RawAgentResponse where
  reply_markdown : String
  action_items : Option (List RawActionItem)
  follow_up_questions : Option (List String)
  warnings : Option (List String)
deriving DecidableEq

/-- Raw (unvalidated) `Intent` payload: the intent arrives as a string. -/
structure RawIntent where
  intent : String
  confidence : ℚ
  rationale : String
deriving DecidableEq

/-- Parse the `Literal["low", "med", "high"]` priority enum. -/
def parsePriority : String → Option Priority
  | "low" => some Priority.low
  | "med" => some Priority.med
  | "high" => some Priority.high
  | _ => none

/-- Serialize a priority back to its literal string. -/
def priorityToString : Priority → String
  | Priority.low => "low"
  | Priority.med => "med"
  | Priority.high => "high"

/-- Parse the `Literal["auto", "plan", "resume", "interview"]` mode enum. -/
def parseMode : String → Option Mode
  | "auto" => some Mode.auto
  | "plan" => some Mode.plan
  | "resume" => some Mode.resume
  | "interview" => some Mode.interview
  | _ => none

/-- Serialize a mode back to its literal string (as the f-string
`f"MODE: {resolved_mode}"` does in src/agent.py). -/
def modeToString : Mode → String
  | Mode.auto => "auto"
  | Mode.plan => "plan"
  | Mode.resume => "resume"
  | Mode.interview => "interview"

/-- Schema validation of one `ActionItem` (pydantic field checks of
src/agent.py lines 28-32): `none` models a raised `ValidationError`. -/
def validateActionItem (raw : RawActionItem) : Option ActionItem :=
  match parsePriority raw.priority with
  | none => none
  | some p =>
    if 1 ≤ raw.title.length ∧ raw.title.length ≤ 140 ∧
        1 ≤ raw.why.length ∧ raw.why.length ≤ 200 ∧
        1 ≤ raw.eta_minutes ∧ raw.eta_minutes ≤ 240 then
      some ⟨raw.title, raw.why, raw.eta_minutes, p⟩
    else none

/-- Validate a list of action items element-wise; any invalid element fails
the whole validation (pydantic validates `list[ActionItem]` atomically). -/
def validateActionItems : List RawActionItem → Option (List ActionItem)
  | [] => some []
  | raw :: rest =>
    match validateActionItem raw with
    | none => none
    | some a =>
      match validateActionItems rest with
      | none => none
      | some rest' => some (a :: rest')

/-- Schema validation of an `AgentResponse` (pydantic field checks of
src/agent.py lines 35-39), filling absent list fields from
`default_factory=list`. -/
def validateAgentResponse (raw : RawAgentResponse) : Option AgentResponse :=
  match validateActionItems (raw.action_items.getD []) with
  | none => none
  | some items =>
    if 1 ≤ raw.reply_markdown.length ∧ raw.reply_markdown.length ≤ 12000 then
      some ⟨raw.reply_markdown, items, raw.follow_up_questions.getD [],
            raw.warnings.getD []⟩
    else none

/-- Schema validation of an `Intent` (pydantic field checks of src/agent.py
lines 42-45). -/
def validateIntent (raw : RawIntent) : Option Intent :=
  match parseMode raw.intent with
  | none => none
  | some m =>
    if 0 ≤ raw.confidence ∧ raw.confidence ≤ 1 ∧
        1 ≤ raw.rationale.length ∧ raw.rationale.length ≤ 300 then
      some ⟨m, raw.confidence, raw.rationale⟩
    else none

/-- Dump a validated `ActionItem` back to a raw payload (`model_dump`). -/
def ActionItem.toRaw (a : ActionItem) : RawActionItem :=
  ⟨a.title, a.why, a.eta_minutes, priorityToString a.priority⟩

/-- Dump a validated `AgentResponse` back to a raw payload (`model_dump`). -/
def AgentResponse.toRaw (r : AgentResponse) : RawAgentResponse :=
  ⟨r.reply_markdown, some (r.action_items.map ActionItem.toRaw),
   some r.follow_up_questions, some r.warnings⟩

/-- Outcome of `Orchestrator._run_with_retries`: a returned value, the last
recorded error re-raised after exhaustion, or the `assert last_err is not
None` failing (only reachable with `max_attempts = 0`). -/
inductive RetryOutcome (ε α : Type)
  | ok (a : α)
  | err (e : ε)
  | assertFail
deriving DecidableEq

/-- Result of a `_run_with_retries` run: its outcome, how many times the
operation was invoked, and the backoff sleeps performed (in seconds, ℚ). -/
structure RetryResult (ε α : Type) where
  outcome : RetryOutcome ε α
  calls : Nat
  sleeps : List ℚ
deriving DecidableEq

/-- Backoff delay of attempt `attempt` (1-based):
`sleep_s = min(2.0 * attempt, 6.0)` (src/agent.py line 79). -/
def backoffDelay (attempt : Nat) : ℚ := min (2 * (attempt : ℚ)) 6

/-- The `for attempt in range(1, max_attempts + 1)` loop of
`_run_with_retries` (src/agent.py lines 72-83): `attempt` is the current
attempt number, the second argument the number of attempts left, then the
running `last_err`, the count of operation invocations so far and the sleeps
performed so far. On failure it records the error, sleeps (also after the
last attempt) and retries; after exhaustion it re-raises `last_err`. -/
def retryAux (op : Nat → Except ε α) :
    Nat → Nat → Option ε → Nat → List ℚ → RetryResult ε α
  | _, 0, lastErr, calls, sleeps =>
    match lastErr with
    | some e => ⟨RetryOutcome.err e, calls, sleeps⟩
    | none => ⟨RetryOutcome.assertFail, calls, sleeps⟩
  | attempt, rem + 1, _, calls, sleeps =>
    match op attempt with
    | Except.ok a => ⟨RetryOutcome.ok a, calls + 1, sleeps⟩
    | Except.error e =>
      retryAux op (attempt + 1) rem (some e) (calls + 1)
        (sleeps ++ [backoffDelay attempt])

/-- `Orchestrator._run_with_retries(run_fn, max_attempts)`: the operation is
an oracle from the attempt number to that attempt's outcome. -/
def runWithRetries (op : Nat → Except ε α) (maxAttempts : Nat) : RetryResult ε α :=
  retryAux op 1 maxAttempts none 0 []

/-- Errors the orchestrator can raise: `ValueError` for the request
precondition, provider failures and schema-validation failures from a model
run, a `KeyError` from the mode-instruction dict, and `AssertionError` from
the retry loop's assert. -/
inductive AgentError
  | invalidRequest
  | provider (code : Nat)
  | schema
  | missingKey
  | assertionFailed
deriving DecidableEq

/-- One model-client invocation, recording which of the four agents ran and
with which prompt. -/
inductive CallEvent
  | intentPrimaryCall (prompt : String)
  | intentFallbackCall (prompt : String)
  | mainPrimaryCall (prompt : String)
  | mainFallbackCall (prompt : String)
deriving DecidableEq

/-- Observable side effects of an orchestrator run: model calls made and
backoff sleeps performed, in order. -/
structure Trace where
  calls : List CallEvent
  sleeps : List ℚ
deriving DecidableEq

/-- The empty trace. -/
def Trace.empty : Trace := ⟨[], []⟩

/-- Trace concatenation. -/
def Trace.append (t u : Trace) : Trace := ⟨t.calls ++ u.calls, t.sleeps ++ u.sleeps⟩

/-- Number of fallback intent-classifier calls recorded in a trace. -/
def CallEvent.isIntentFallback : CallEvent → Bool
  | CallEvent.intentFallbackCall _ => true
  | _ => false

/-- Count of intent-fallback model calls in a trace. -/
def Trace.fallbackIntentCalls (t : Trace) : Nat :=
  t.calls.countP CallEvent.isIntentFallback

/-- The four model-client oracles held by `Orchestrator` (its four `Agent`
fields): each maps the prompt and the attempt index to a provider failure
(an opaque error code) or a raw payload. -/
structure Env where
  intent_agent_primary : String → Nat → Except Nat RawIntent
  intent_agent_fallback : String → Nat → Except Nat RawIntent
  main_agent_primary : String → Nat → Except Nat RawAgentResponse
  main_agent_fallback : String → Nat → Except Nat RawAgentResponse

/-- One intent-agent run (`agent.run(prompt)` followed by pydantic_ai's
output validation): a provider failure or a schema failure both surface as
exceptions to the retry loop. -/
def runIntentAgent (agent : String → Nat → Except Nat RawIntent)
    (prompt : String) (n : Nat) : Except AgentError Intent :=
  match agent prompt n with
  | Except.error code => Except.error (AgentError.provider code)
  | Except.ok raw =>
    match validateIntent raw with
    | some i => Except.ok i
    | none => Except.error AgentError.schema

/-- One main-agent run (`agent.run(prompt)` followed by pydantic_ai's
output validation). -/
def runMainAgent (agent : String → Nat → Except Nat RawAgentResponse)
    (prompt : String) (n : Nat) : Except AgentError AgentResponse :=
  match agent prompt n with
  | Except.error code => Except.error (AgentError.provider code)
  | Except.ok raw =>
    match validateAgentResponse raw with
    | some r => Except.ok r
    | none => Except.error AgentError.schema

/-- Python's `str.strip()`: drop leading and trailing whitespace. -/
def strip (s : String) : String :=
  String.mk (((s.data.dropWhile Char.isWhitespace).reverse.dropWhile
    Char.isWhitespace).reverse)

/-- Render one history line: `f"{role}: {m.content.strip()}"` with role
`"USER"` or `"ASSISTANT"` (src/agent.py lines 89-91). -/
def renderMessage (m : ChatMessage) : String :=
  (if m.role = Role.user then "USER" else "ASSISTANT") ++ ": " ++ strip m.content

/-- `Orchestrator._format_history(messages, keep_last)` (src/agent.py lines
85-92): keep the last `keep_last` messages (`messages[-keep_last:]`), render
each, join with newlines. -/
def formatHistory (messages : List ChatMessage) (keepLast : Nat) : String :=
  let trimmed := messages.drop (messages.length - keepLast)
  let lines := trimmed.foldl (fun lines m => lines ++ [renderMessage m]) []
  String.intercalate "\n" lines

/-- The classifier prompt built by `classify_intent` (src/agent.py lines
95-99). -/
def classifyPrompt (latestUserText : String) : String :=
  "Classify the user\x27s intent into one of: auto, plan, resume, interview.\n" ++
  "Return the intent with confidence and a short rationale.\n\n" ++
  "USER_MESSAGE:\n" ++ latestUserText

/-- The fixed system-context block of `respond` (src/agent.py lines 129-136). -/
def systemContext : String :=
  "You are PlacementSprint, a practical placement-prep agent.\n" ++
  "You must be concise, structured, and action-oriented.\n" ++
  "If the prompt contains a section starting with \x27RESUME_CONTEXT:\x27 treat it as the user\x27s resume text.\n" ++
  "Do not repeat the resume verbatim; extract only relevant facts.\n" ++
  "Output MUST be valid per the schema (reply_markdown, action_items, follow_up_questions, warnings).\n" ++
  "If inputs are missing (role, deadline, skills), ask focused follow-up questions.\n"

/-- The mode-instruction dict of `respond` (src/agent.py lines 138-143), as
an association list keyed by the resolved mode. -/
def modeInstructionTable : List (Mode × String) :=
  [(Mode.plan, "Generate a timeboxed plan (today + next 7 days). Include action_items."),
   (Mode.resume, "Improve resume bullets based on user info/JD; provide 4-8 bullets and 3 fixes."),
   (Mode.interview, "Generate an interview prep set: 10 questions + what a strong answer includes."),
   (Mode.auto, "Decide whether plan/resume/interview is best, then proceed.")]

/-- The dict lookup `{...}[resolved_mode]`: `none` models a `KeyError`. -/
def lookupInstruction (m : Mode) : Option String :=
  modeInstructionTable.lookup m

/-- The final prompt assembled by `respond` (src/agent.py lines 145-153). -/
def buildPrompt (resolvedMode : Mode) (instr history latest : String) : String :=
  systemContext ++ "\n" ++
  "MODE: " ++ modeToString resolvedMode ++ "\n" ++
  "MODE_INSTRUCTION: " ++ instr ++ "\n\n" ++
  "CONVERSATION_HISTORY:\n" ++ history ++ "\n\n" ++
  "USER_LATEST:\n" ++ latest ++ "\n"

/-- The literal fallback notice appended by `respond` (src/agent.py line 168). -/
def fallbackWarning : String :=
  "Primary model failed; response generated with fallback model."

/-- `Orchestrator.classify_intent` (src/agent.py lines 94-113): retry the
primary intent agent; on any exception retry the fallback intent agent once;
a fallback exhaustion propagates to the caller. -/
def classifyIntent (env : Env) (latestUserText : String) :
    Except AgentError Intent × Trace :=
  let prompt := classifyPrompt latestUserText
  let r1 := runWithRetries (runIntentAgent env.intent_agent_primary prompt) 3
  match r1.outcome with
  | RetryOutcome.ok i =>
    (Except.ok i, ⟨List.replicate r1.calls (CallEvent.intentPrimaryCall prompt), r1.sleeps⟩)
  | _ =>
    let r2 := runWithRetries (runIntentAgent env.intent_agent_fallback prompt) 3
    let tr := Trace.mk
      (List.replicate r1.calls (CallEvent.intentPrimaryCall prompt) ++
       List.replicate r2.calls (CallEvent.intentFallbackCall prompt))
      (r1.sleeps ++ r2.sleeps)
    match r2.outcome with
    | RetryOutcome.ok i => (Except.ok i, tr)
    | RetryOutcome.err e => (Except.error e, tr)
    | RetryOutcome.assertFail => (Except.error AgentError.assertionFailed, tr)

/-- Mode resolution in `respond` (src/agent.py lines 122-127): when the
caller passes `auto`, classify the trimmed last user message and adopt the
classified intent iff its confidence is at least 0.55; an exception from the
classifier propagates. -/
def resolveMode (env : Env) (mode : Mode) (latest : String) :
    Except AgentError Mode × Trace :=
  if mode = Mode.auto then
    match classifyIntent env latest with
    | (Except.ok intent, tr) =>
      (Except.ok (if intent.confidence ≥ 55 / 100 then intent.intent else Mode.auto), tr)
    | (Except.error e, tr) => (Except.error e, tr)
  else (Except.ok mode, Trace.empty)

/-- The primary/fallback generation block of `respond` (src/agent.py lines
155-169): retry the primary main agent; on any exception retry the fallback
main agent and, on success, append the fallback notice to the response's
warnings; a fallback exhaustion propagates. -/
def generateResponse (env : Env) (prompt : String) :
    Except AgentError AgentResponse × Trace :=
  let r1 := runWithRetries (runMainAgent env.main_agent_primary prompt) 3
  match r1.outcome with
  | RetryOutcome.ok resp =>
    (Except.ok resp, ⟨List.replicate r1.calls (CallEvent.mainPrimaryCall prompt), r1.sleeps⟩)
  | _ =>
    let r2 := runWithRetries (runMainAgent env.main_agent_fallback prompt) 3
    let tr := Trace.mk
      (List.replicate r1.calls (CallEvent.mainPrimaryCall prompt) ++
       List.replicate r2.calls (CallEvent.mainFallbackCall prompt))
      (r1.sleeps ++ r2.sleeps)
    match r2.outcome with
    | RetryOutcome.ok resp =>
      (Except.ok { resp with warnings := resp.warnings ++ [fallbackWarning] }, tr)
    | RetryOutcome.err e => (Except.error e, tr)
    | RetryOutcome.assertFail => (Except.error AgentError.assertionFailed, tr)

/-- `Orchestrator.respond` (src/agent.py lines 115-169): precondition check,
mode resolution, prompt assembly, then primary/fallback generation. -/
def respond (env : Env) (messages : List ChatMessage) (mode : Mode) :
    Except AgentError AgentResponse × Trace :=
  match messages.getLast? with
  | none => (Except.error AgentError.invalidRequest, Trace.empty)
  | some lastMsg =>
    if lastMsg.role = Role.user then
      match resolveMode env mode (strip lastMsg.content) with
      | (Except.ok resolvedMode, tr) =>
        match lookupInstruction resolvedMode with
        | some instr =>
          let result := generateResponse env
            (buildPrompt resolvedMode instr (formatHistory messages 12)
              (strip lastMsg.content))
          (result.1, tr.append result.2)
        | none => (Except.error AgentError.missingKey, tr)
      | (Except.error e, tr) => (Except.error e, tr)
    else (Except.error AgentError.invalidRequest, Trace.empty)

/-! Concrete fixtures used by witness theorems. -/

/-- A single user message. -/
def msgHi : ChatMessage := ⟨Role.user, "hi"⟩

/-- A raw main-agent payload with only the reply set. -/
def rawOkResp : RawAgentResponse := ⟨"ok", none, none, none⟩

/-- The validated form of `rawOkResp`. -/
def okResp : AgentResponse := ⟨"ok", [], [], []⟩

/-- Environment whose main primary agent always succeeds. -/
def envPrimaryOk : Env :=
  ⟨fun _ _ => Except.error 1, fun _ _ => Except.error 2,
   fun _ _ => Except.ok rawOkResp, fun _ _ => Except.error 4⟩

/-- Environment whose main primary agent always fails and whose main
fallback agent always succeeds. -/
def envPrimaryFails : Env :=
  ⟨fun _ _ => Except.error 1, fun _ _ => Except.error 2,
   fun _ _ => Except.error 7, fun _ _ => Except.ok rawOkResp⟩

/-- Environment whose intent agents always fail. -/
def envIntentFail : Env :=
  ⟨fun _ _ => Except.error 5, fun _ _ => Except.error 6,
   fun _ _ => Except.error 7, fun _ _ => Except.error 8⟩

/-- A raw classifier payload with confidence exactly 0.55. -/
def rawIntentPlan : RawIntent := ⟨"plan", 55 / 100, "looks like planning"⟩

/-- The validated form of `rawIntentPlan`. -/
def intentPlan : Intent := ⟨Mode.plan, 55 / 100, "looks like planning"⟩

/-- A raw classifier payload with confidence 0.549. -/
def rawIntentLow : RawIntent := ⟨"plan", 549 / 1000, "unsure"⟩

/-- The validated form of `rawIntentLow`. -/
def intentLow : Intent := ⟨Mode.plan, 549 / 1000, "unsure"⟩

/-- Environment whose intent primary agent classifies at confidence 0.55. -/
def envIntent55 : Env :=
  ⟨fun _ _ => Except.ok rawIntentPlan, fun _ _ => Except.error 2,
   fun _ _ => Except.ok rawOkResp, fun _ _ => Except.error 4⟩

/-- Environment whose intent primary agent classifies at confidence 0.549. -/
def envIntent549 : Env :=
  ⟨fun _ _ => Except.ok rawIntentLow, fun _ _ => Except.error 2,
   fun _ _ => Except.ok rawOkResp, fun _ _ => Except.error 4⟩

/-! Basic facts about the retry executor. -/

/-- Unfolding lemma for one loop iteration of `retryAux`. -/
theorem retryAux_succ {ε α : Type} (op : Nat → Except ε α) (attempt rem : Nat)
    (lastErr : Option ε) (calls : Nat) (sleeps : List ℚ) :
    retryAux op attempt (rem + 1) lastErr calls sleeps =
      match op attempt with
      | Except.ok a => ⟨RetryOutcome.ok a, calls + 1, sleeps⟩
      | Except.error e =>
        retryAux op (attempt + 1) rem (some e) (calls + 1)
          (sleeps ++ [backoffDelay attempt]) := rfl

/-- The first three backoff delays are 2.0s, 4.0s, 6.0s. -/
theorem backoffDelay_one : backoffDelay 1 = 2 := by
  norm_num [backoffDelay, min_def]

/-- Second backoff delay. -/
theorem backoffDelay_two : backoffDelay 2 = 4 := by
  norm_num [backoffDelay, min_def]

/-- Third backoff delay: capped at 6.0. -/
theorem backoffDelay_three : backoffDelay 3 = 6 := by
  norm_num [backoffDelay, min_def]

/-- Three failing attempts: three calls, three sleeps, last error re-raised. -/
theorem retry3_fail3 {ε α : Type} (op : Nat → Except ε α) (e₁ e₂ e₃ : ε)
    (h1 : op 1 = Except.error e₁) (h2 : op 2 = Except.error e₂)
    (h3 : op 3 = Except.error e₃) :
    runWithRetries op 3 =
      ⟨RetryOutcome.err e₃, 3, [backoffDelay 1, backoffDelay 2, backoffDelay 3]⟩ := by
  have s1 : runWithRetries op 3 =
      retryAux op 2 2 (some e₁) 1 ([] ++ [backoffDelay 1]) := by
    show retryAux op 1 (2 + 1) none 0 [] = _
    rw [retryAux_succ, h1]
  have s2 : retryAux op 2 2 (some e₁) 1 ([] ++ [backoffDelay 1]) =
      retryAux op 3 1 (some e₂) 2 (([] ++ [backoffDelay 1]) ++ [backoffDelay 2]) := by
    show retryAux op 2 (1 + 1) _ _ _ = _
    rw [retryAux_succ, h2]
  have s3 : retryAux op 3 1 (some e₂) 2 (([] ++ [backoffDelay 1]) ++ [backoffDelay 2]) =
      retryAux op 4 0 (some e₃) 3
        ((([] ++ [backoffDelay 1]) ++ [backoffDelay 2]) ++ [backoffDelay 3]) := by
    show retryAux op 3 (0 + 1) _ _ _ = _
    rw [retryAux_succ, h3]
  rw [s1, s2, s3]
  rfl

/-- A first successful attempt: one call, no sleep, value returned. -/
theorem retry3_ok1 {ε α : Type} (op : Nat → Except ε α) (a : α)
    (h1 : op 1 = Except.ok a) :
    runWithRetries op 3 = ⟨RetryOutcome.ok a, 1, []⟩ := by
  show retryAux op 1 (2 + 1) none 0 [] = _
  rw [retryAux_succ, h1]

/-- Two failures then a success: three calls, two sleeps, value returned. -/
theorem retry3_fail2_ok {ε α : Type} (op : Nat → Except ε α) (e₁ e₂ : ε) (a : α)
    (h1 : op 1 = Except.error e₁) (h2 : op 2 = Except.error e₂)
    (h3 : op 3 = Except.ok a) :
    runWithRetries op 3 =
      ⟨RetryOutcome.ok a, 3, [backoffDelay 1, backoffDelay 2]⟩ := by
  have s1 : runWithRetries op 3 =
      retryAux op 2 2 (some e₁) 1 ([] ++ [backoffDelay 1]) := by
    show retryAux op 1 (2 + 1) none 0 [] = _
    rw [retryAux_succ, h1]
  have s2 : retryAux op 2 2 (some e₁) 1 ([] ++ [backoffDelay 1]) =
      retryAux op 3 1 (some e₂) 2 (([] ++ [backoffDelay 1]) ++ [backoffDelay 2]) := by
    show retryAux op 2 (1 + 1) _ _ _ = _
    rw [retryAux_succ, h2]
  have s3 : retryAux op 3 1 (some e₂) 2 (([] ++ [backoffDelay 1]) ++ [backoffDelay 2]) =
      ⟨RetryOutcome.ok a, 3, ([] ++ [backoffDelay 1]) ++ [backoffDelay 2]⟩ := by
    show retryAux op 3 (0 + 1) _ _ _ = _
    rw [retryAux_succ, h3]
  rw [s1, s2, s3]
  rfl

/-- The retry loop never invokes the operation more than the remaining
attempt budget. -/
theorem retryAux_calls_le {ε α : Type} (op : Nat → Except ε α) :
    ∀ (rem attempt : Nat) (lastErr : Option ε) (calls : Nat) (sleeps : List ℚ),
      (retryAux op attempt rem lastErr calls sleeps).calls ≤ calls + rem := by
  intro rem
  induction rem with
  | zero =>
    intro attempt lastErr calls sleeps
    cases lastErr <;> simp [retryAux]
  | succ n ih =>
    intro attempt lastErr calls sleeps
    rw [retryAux_succ]
    split
    · show calls + 1 ≤ calls + (n + 1)
      omega
    · exact le_trans (ih (attempt + 1) (some _) (calls + 1) _) (by omega)

/-- Call-count bound for a whole `_run_with_retries` run. -/
theorem runWithRetries_calls_le {ε α : Type} (op : Nat → Except ε α) (k : Nat) :
    (runWithRetries op k).calls ≤ k := by
  simpa using retryAux_calls_le op k 1 none 0 []

/-- A value returned by the retry loop was returned by some attempt. -/
theorem retryAux_ok_origin {ε α : Type} (op : Nat → Except ε α) :
    ∀ (rem attempt : Nat) (lastErr : Option ε) (calls : Nat) (sleeps : List ℚ)
      (a : α),
      (retryAux op attempt rem lastErr calls sleeps).outcome = RetryOutcome.ok a →
      ∃ n, op n = Except.ok a := by
  intro rem
  induction rem with
  | zero =>
    intro attempt lastErr calls sleeps a h
    cases lastErr <;> simp [retryAux] at h
  | succ m ih =>
    intro attempt lastErr calls sleeps a h
    rw [retryAux_succ] at h
    split at h
    · rename_i b heq
      obtain rfl : b = a := by simpa using h
      exact ⟨attempt, heq⟩
    · rename_i e heq
      exact ih (attempt + 1) (some e) (calls + 1) _ a h

/-- An error raised by the retry loop was raised by some attempt (provided
any pre-recorded error also was). -/
theorem retryAux_err_origin {ε α : Type} (op : Nat → Except ε α) :
    ∀ (rem attempt : Nat) (lastErr : Option ε) (calls : Nat) (sleeps : List ℚ)
      (e : ε),
      (∀ e', lastErr = some e' → ∃ n, op n = Except.error e') →
      (retryAux op attempt rem lastErr calls sleeps).outcome = RetryOutcome.err e →
      ∃ n, op n = Except.error e := by
  intro rem
  induction rem with
  | zero =>
    intro attempt lastErr calls sleeps e hinv h
    cases lastErr with
    | none => simp [retryAux] at h
    | some e' =>
      obtain rfl : e' = e := by simpa [retryAux] using h
      exact hinv _ rfl
  | succ m ih =>
    intro attempt lastErr calls sleeps e hinv h
    rw [retryAux_succ] at h
    split at h
    · simp at h
    · rename_i e' heq
      exact ih (attempt + 1) (some e') (calls + 1) _ e
        (fun e'' he => by cases he; exact ⟨attempt, heq⟩) h

/-- `ok` origin for a whole `_run_with_retries` run. -/
theorem runWithRetries_ok_origin {ε α : Type} (op : Nat → Except ε α) (k : Nat)
    (a : α) (h : (runWithRetries op k).outcome = RetryOutcome.ok a) :
    ∃ n, op n = Except.ok a :=
  retryAux_ok_origin op k 1 none 0 [] a h

/-- `err` origin for a whole `_run_with_retries` run. -/
theorem runWithRetries_err_origin {ε α : Type} (op : Nat → Except ε α) (k : Nat)
    (e : ε) (h : (runWithRetries op k).outcome = RetryOutcome.err e) :
    ∃ n, op n = Except.error e :=
  retryAux_err_origin op k 1 none 0 [] e (fun _ he => by cases he) h

/-- C2: an operation that fails on every attempt is invoked exactly 3 times
by the retry executor with max_attempts=3; a sleep follows every failed
attempt — including the last one before giving up — with delays 2.0s, 4.0s,
6.0s; the last observed error is propagated. -/
theorem retry_always_failing {ε α : Type} (op : Nat → Except ε α) (e₁ e₂ e₃ : ε)
    (h1 : op 1 = Except.error e₁) (h2 : op 2 = Except.error e₂)
    (h3 : op 3 = Except.error e₃) :
    runWithRetries op 3 = ⟨RetryOutcome.err e₃, 3, [2, 4, 6]⟩ := by
  rw [retry3_fail3 op e₁ e₂ e₃ h1 h2 h3, backoffDelay_one, backoffDelay_two,
    backoffDelay_three]

/-- C2 witness: a concrete always-failing operation. -/
theorem retry_always_failing_witness :
    runWithRetries (fun _ => (Except.error 9 : Except Nat Nat)) 3 =
      ⟨RetryOutcome.err 9, 3, [2, 4, 6]⟩ :=
  retry_always_failing (fun _ => Except.error 9) 9 9 9 rfl rfl rfl

/-- C3: an operation that fails twice then succeeds on the third attempt
makes the retry executor with max_attempts=3 return the success value after
exactly two sleeps, with delays 2.0s then 4.0s; no sleep follows the
successful attempt. -/
theorem retry_fail_twice_succeed {ε α : Type} (op : Nat → Except ε α)
    (e₁ e₂ : ε) (a : α) (h1 : op 1 = Except.error e₁)
    (h2 : op 2 = Except.error e₂) (h3 : op 3 = Except.ok a) :
    runWithRetries op 3 = ⟨RetryOutcome.ok a, 3, [2, 4]⟩ := by
  rw [retry3_fail2_ok op e₁ e₂ a h1 h2 h3, backoffDelay_one, backoffDelay_two]

/-- C3 witness: a concrete operation failing twice then succeeding. -/
theorem retry_fail_twice_succeed_witness :
    runWithRetries
      (fun n => if n ≤ 2 then (Except.error 9 : Except Nat Nat) else Except.ok 42) 3 =
      ⟨RetryOutcome.ok 42, 3, [2, 4]⟩ :=
  retry_fail_twice_succeed _ 9 9 42 rfl rfl rfl

/-! Soundness and idempotence of the Schema Validator. -/

/-- A validated action item satisfies its field constraints. -/
theorem validateActionItem_valid (raw : RawActionItem) (a : ActionItem)
    (h : validateActionItem raw = some a) : a.Valid := by
  unfold validateActionItem at h
  split at h
  · cases h
  · split at h
    · rename_i hcond
      cases h
      exact hcond
    · cases h

/-- Every element of a validated action-item list satisfies its
field constraints. -/
theorem validateActionItems_valid :
    ∀ (l : List RawActionItem) (items : List ActionItem),
      validateActionItems l = some items → ∀ a ∈ items, a.Valid := by
  intro l
  induction l with
  | nil =>
    intro items h a ha
    cases h
    cases ha
  | cons raw rest ih =>
    intro items h a ha
    unfold validateActionItems at h
    split at h
    · cases h
    · rename_i b hb
      split at h
      · cases h
      · rename_i rest' hrest
        cases h
        rcases List.mem_cons.mp ha with rfl | ha'
        · exact validateActionItem_valid raw a hb
        · exact ih rest' hrest a ha'

/-- A validated response satisfies all its field constraints. -/
theorem validateAgentResponse_valid (raw : RawAgentResponse) (r : AgentResponse)
    (h : validateAgentResponse raw = some r) : r.Valid := by
  unfold validateAgentResponse at h
  split at h
  · cases h
  · rename_i items hitems
    split at h
    · rename_i hcond
      cases h
      exact ⟨hcond.1, hcond.2, validateActionItems_valid _ items hitems⟩
    · cases h

/-- Changing only the warnings of a valid response keeps it valid (the
warnings field carries no constraint). -/
theorem valid_set_warnings (r : AgentResponse) (w : List String)
    (h : r.Valid) : ({ r with warnings := w } : AgentResponse).Valid := h

/-- Parsing the serialized priority returns the original priority. -/
theorem parsePriority_toString (p : Priority) :
    parsePriority (priorityToString p) = some p := by
  cases p <;> rfl

/-- Re-validating a validated action item returns it unchanged. -/
theorem validateActionItem_roundtrip (raw : RawActionItem) (a : ActionItem)
    (h : validateActionItem raw = some a) :
    validateActionItem a.toRaw = some a := by
  unfold validateActionItem at h
  split at h
  · cases h
  · rename_i p hp
    split at h
    · rename_i hcond
      cases h
      simp only [ActionItem.toRaw, validateActionItem, parsePriority_toString]
      rw [if_pos hcond]
    · cases h

/-- Re-validating a validated action-item list returns it unchanged. -/
theorem validateActionItems_roundtrip :
    ∀ (l : List RawActionItem) (items : List ActionItem),
      validateActionItems l = some items →
      validateActionItems (items.map ActionItem.toRaw) = some items := by
  intro l
  induction l with
  | nil =>
    intro items h
    cases h
    rfl
  | cons raw rest ih =>
    intro items h
    unfold validateActionItems at h
    split at h
    · cases h
    · rename_i a ha
      split at h
      · cases h
      · rename_i rest' hrest
        cases h
        simp only [List.map_cons]
        unfold validateActionItems
        rw [validateActionItem_roundtrip raw a ha, ih rest' hrest]

/-- C9: validation of `AgentResponse` is idempotent — re-validating the
dump of a validated response (in particular one constructed from a minimal
valid payload: reply set, all three sequences defaulted to empty) yields the
identical object. -/
theorem validate_agent_response_roundtrip (raw : RawAgentResponse)
    (r : AgentResponse) (h : validateAgentResponse raw = some r) :
    validateAgentResponse r.toRaw = some r := by
  unfold validateAgentResponse at h
  split at h
  · cases h
  · rename_i items hitems
    split at h
    · rename_i hcond
      cases h
      simp only [AgentResponse.toRaw, validateAgentResponse, Option.getD_some]
      rw [validateActionItems_roundtrip _ items hitems]
      simp [hcond.1, hcond.2]
    · cases h

/-- C9 witness: the minimal valid payload round-trips to an identical
object. -/
theorem validate_agent_response_roundtrip_witness :
    validateAgentResponse rawOkResp = some okResp ∧
    validateAgentResponse (AgentResponse.toRaw okResp) = some okResp :=
  ⟨by decide, validate_agent_response_roundtrip rawOkResp okResp (by decide)⟩

/-! The Response Generator only ever returns validated responses. -/

/-- A successful main-agent run yields a validated response. -/
theorem runMainAgent_ok_valid (agent : String → Nat → Except Nat RawAgentResponse)
    (prompt : String) (n : Nat) (r : AgentResponse)
    (h : runMainAgent agent prompt n = Except.ok r) : r.Valid := by
  unfold runMainAgent at h
  split at h
  · cases h
  · rename_i raw hraw
    split at h
    · rename_i r' hr'
      cases h
      exact validateAgentResponse_valid raw _ hr'
    · cases h

/-- A successful generation (primary or fallback, with the fallback notice
appended) yields a valid response. -/
theorem generateResponse_ok_valid (env : Env) (prompt : String)
    (r : AgentResponse) (h : (generateResponse env prompt).1 = Except.ok r) :
    r.Valid := by
  simp only [generateResponse] at h
  split at h
  · rename_i resp heq
    obtain rfl : resp = r := by simpa using h
    obtain ⟨n, hn⟩ := runWithRetries_ok_origin _ 3 resp heq
    exact runMainAgent_ok_valid _ prompt n resp hn
  · rename_i hne
    split at h
    · rename_i resp heq
      obtain rfl : { resp with warnings := resp.warnings ++ [fallbackWarning] } = r := by
        simpa using h
      obtain ⟨n, hn⟩ := runWithRetries_ok_origin _ 3 resp heq
      exact valid_set_warnings resp _ (runMainAgent_ok_valid _ prompt n resp hn)
    · simp at h
    · simp at h

/-- C1: every `AgentResponse` returned to a caller by `respond` satisfies
all field constraints of the data model — reply 1..12000 chars, each action
item with title 1..140, why 1..200, eta_minutes in [1,240] and an enum
priority; schema validation is never bypassed. -/
theorem respond_schema_valid (env : Env) (messages : List ChatMessage)
    (mode : Mode) (r : AgentResponse)
    (h : (respond env messages mode).1 = Except.ok r) : r.Valid := by
  unfold respond at h
  split at h
  · cases h
  · rename_i lastMsg hlast
    split at h
    · split at h
      · rename_i resolvedMode tr hres
        split at h
        · rename_i instr hinstr
          exact generateResponse_ok_valid env _ r (by simpa using h)
        · cases h
      · rename_i e tr hres
        cases h
    · cases h

/-- C1 witness: a concrete successful `respond` run returns a valid
response. -/
theorem respond_schema_valid_witness : AgentResponse.Valid okResp :=
  respond_schema_valid envPrimaryOk [msgHi] Mode.plan okResp rfl

/-! Precondition handling and the primary/fallback policy of `respond`. -/

/-- C4: when `messages` is empty or its last message is not from the user,
`respond` fails immediately with the invalid-request error and invokes no
model client at all (the trace is empty: no primary, fallback or classifier
call, and no sleep). -/
theorem respond_invalid_request (env : Env) (messages : List ChatMessage)
    (mode : Mode)
    (h : ∀ m, messages.getLast? = some m → m.role ≠ Role.user) :
    respond env messages mode = (Except.error AgentError.invalidRequest, Trace.empty) := by
  unfold respond
  split
  · rfl
  · rename_i lastMsg hlast
    rw [if_neg (h lastMsg hlast)]

/-- C4 witness: the empty history and an assistant-final history both fail
without any model call. -/
theorem respond_invalid_request_witness :
    respond envPrimaryOk [] Mode.auto =
      (Except.error AgentError.invalidRequest, Trace.empty) ∧
    respond envPrimaryOk [⟨Role.assistant, "done"⟩] Mode.auto =
      (Except.error AgentError.invalidRequest, Trace.empty) :=
  ⟨respond_invalid_request envPrimaryOk [] Mode.auto
      (fun m hm => by simp at hm),
   respond_invalid_request envPrimaryOk [⟨Role.assistant, "done"⟩] Mode.auto
      (fun m hm => by
        rw [List.getLast?_singleton] at hm
        cases hm
        decide)⟩

/-- The mode-instruction dict covers every mode. -/
theorem lookupInstruction_isSome (m : Mode) : (lookupInstruction m).isSome = true := by
  cases m <;> rfl

/-- Primary exhaustion followed by a fallback success appends the fallback
notice exactly once. -/
theorem generateResponse_fallback (env : Env) (prompt : String) (code : Nat)
    (raw : RawAgentResponse) (r : AgentResponse)
    (hp : ∀ n, env.main_agent_primary prompt n = Except.error code)
    (hf : ∀ n, env.main_agent_fallback prompt n = Except.ok raw)
    (hval : validateAgentResponse raw = some r) :
    (generateResponse env prompt).1 =
      Except.ok { r with warnings := r.warnings ++ [fallbackWarning] } := by
  have hop : ∀ n, runMainAgent env.main_agent_primary prompt n =
      Except.error (AgentError.provider code) := by
    intro n
    unfold runMainAgent
    rw [hp n]
  have h1 : runWithRetries (runMainAgent env.main_agent_primary prompt) 3 =
      ⟨RetryOutcome.err (AgentError.provider code), 3,
       [backoffDelay 1, backoffDelay 2, backoffDelay 3]⟩ :=
    retry3_fail3 _ _ _ _ (hop 1) (hop 2) (hop 3)
  have hopf : runMainAgent env.main_agent_fallback prompt 1 = Except.ok r := by
    simp only [runMainAgent, hf 1, hval]
  have h2 : runWithRetries (runMainAgent env.main_agent_fallback prompt) 3 =
      ⟨RetryOutcome.ok r, 1, []⟩ := retry3_ok1 _ _ hopf
  simp only [generateResponse, h1, h2]

/-- A first-attempt primary success returns the response unchanged. -/
theorem generateResponse_primary_ok (env : Env) (prompt : String)
    (raw : RawAgentResponse) (r : AgentResponse)
    (hp : ∀ n, env.main_agent_primary prompt n = Except.ok raw)
    (hval : validateAgentResponse raw = some r) :
    (generateResponse env prompt).1 = Except.ok r := by
  have hop : runMainAgent env.main_agent_primary prompt 1 = Except.ok r := by
    simp only [runMainAgent, hp 1, hval]
  have h1 : runWithRetries (runMainAgent env.main_agent_primary prompt) 3 =
      ⟨RetryOutcome.ok r, 1, []⟩ := retry3_ok1 _ _ hop
  simp only [generateResponse, h1]

/-- C5: when the primary main-model path exhausts its retries and the
fallback path succeeds, `respond` returns the fallback response with the
literal fallback notice appended exactly once to its warnings; when the
primary path succeeds, the notice is not added. -/
theorem respond_fallback_warning (env : Env) (messages : List ChatMessage)
    (m : ChatMessage) (mode : Mode) (code : Nat) (raw : RawAgentResponse)
    (r : AgentResponse) (hlast : messages.getLast? = some m)
    (hrole : m.role = Role.user) (hmode : mode ≠ Mode.auto)
    (hval : validateAgentResponse raw = some r) :
    ((∀ p n, env.main_agent_primary p n = Except.error code) →
      (∀ p n, env.main_agent_fallback p n = Except.ok raw) →
      (respond env messages mode).1 =
        Except.ok { r with warnings := r.warnings ++ [fallbackWarning] }) ∧
    ((∀ p n, env.main_agent_primary p n = Except.ok raw) →
      (respond env messages mode).1 = Except.ok r) := by
  have hres : resolveMode env mode (strip m.content) = (Except.ok mode, Trace.empty) := by
    unfold resolveMode
    rw [if_neg hmode]
  have hinstr : ∃ instr, lookupInstruction mode = some instr := by
    have := lookupInstruction_isSome mode
    cases hi : lookupInstruction mode with
    | none => rw [hi] at this; cases this
    | some instr => exact ⟨instr, rfl⟩
  obtain ⟨instr, hinstr⟩ := hinstr
  constructor
  · intro hp hf
    simp only [respond, hlast, hrole, if_pos rfl, hres, hinstr]
    simpa using generateResponse_fallback env _ code raw r
      (fun n => hp _ n) (fun n => hf _ n) hval
  · intro hp
    simp only [respond, hlast, hrole, if_pos rfl, hres, hinstr]
    simpa using generateResponse_primary_ok env _ raw r (fun n => hp _ n) hval

/-- C5 witness: concrete environments for the fallback-success and the
primary-success scenarios. -/
theorem respond_fallback_warning_witness :
    (respond envPrimaryFails [msgHi] Mode.plan).1 =
      Except.ok { okResp with warnings := okResp.warnings ++ [fallbackWarning] } ∧
    (respond envPrimaryOk [msgHi] Mode.plan).1 = Except.ok okResp :=
  ⟨(respond_fallback_warning envPrimaryFails [msgHi] msgHi Mode.plan 7 rawOkResp
      okResp rfl rfl (by decide) (by decide)).1 (fun _ _ => rfl) (fun _ _ => rfl),
   (respond_fallback_warning envPrimaryOk [msgHi] msgHi Mode.plan 7 rawOkResp
      okResp rfl rfl (by decide) (by decide)).2 (fun _ _ => rfl)⟩

/-- C6: with mode `auto`, a classifier intent of confidence at least 0.55
(the boundary included) is adopted as the resolved mode; a confidence
strictly below 0.55 keeps the resolved mode `auto`. -/
theorem respond_auto_threshold (env : Env) (latest : String) (rawI : RawIntent)
    (i : Intent)
    (h1 : env.intent_agent_primary (classifyPrompt latest) 1 = Except.ok rawI)
    (h2 : validateIntent rawI = some i) :
    (i.confidence ≥ 55 / 100 →
      (resolveMode env Mode.auto latest).1 = Except.ok i.intent) ∧
    (i.confidence < 55 / 100 →
      (resolveMode env Mode.auto latest).1 = Except.ok Mode.auto) := by
  have hop : runIntentAgent env.intent_agent_primary (classifyPrompt latest) 1 =
      Except.ok i := by
    simp only [runIntentAgent, h1, h2]
  have hr : runWithRetries (runIntentAgent env.intent_agent_primary (classifyPrompt latest)) 3 =
      ⟨RetryOutcome.ok i, 1, []⟩ := retry3_ok1 _ _ hop
  have hc : classifyIntent env latest =
      (Except.ok i, ⟨List.replicate 1 (CallEvent.intentPrimaryCall (classifyPrompt latest)), []⟩) := by
    simp only [classifyIntent, hr]
  constructor
  · intro hconf
    simp [resolveMode, hc, hconf]
  · intro hconf
    have hconf' := not_le.mpr hconf
    simp [resolveMode, hc, hconf']

/-- Validation of a well-formed intent payload succeeds. -/
theorem validateIntent_some (raw : RawIntent) (m : Mode)
    (hm : parseMode raw.intent = some m) (h0 : 0 ≤ raw.confidence)
    (h1 : raw.confidence ≤ 1) (hr1 : 1 ≤ raw.rationale.length)
    (hr2 : raw.rationale.length ≤ 300) :
    validateIntent raw = some ⟨m, raw.confidence, raw.rationale⟩ := by
  simp only [validateIntent, hm]
  rw [if_pos ⟨h0, h1, hr1, hr2⟩]

/-- C6 witness: confidence exactly 0.55 adopts the classified intent;
confidence 0.549 keeps `auto`. -/
theorem respond_auto_threshold_witness :
    (resolveMode envIntent55 Mode.auto "hi").1 = Except.ok Mode.plan ∧
    (resolveMode envIntent549 Mode.auto "hi").1 = Except.ok Mode.auto :=
  ⟨(respond_auto_threshold envIntent55 "hi" rawIntentPlan intentPlan rfl
      (validateIntent_some rawIntentPlan Mode.plan rfl
        (by norm_num [rawIntentPlan]) (by norm_num [rawIntentPlan])
        (by decide) (by decide))).1 (by norm_num [intentPlan]),
   (respond_auto_threshold envIntent549 "hi" rawIntentLow intentLow rfl
      (validateIntent_some rawIntentLow Mode.plan rfl
        (by norm_num [rawIntentLow]) (by norm_num [rawIntentLow])
        (by decide) (by decide))).2 (by norm_num [intentLow])⟩

/-! History formatting. -/

/-- Appending one rendered line at a time is mapping the renderer. -/
theorem foldl_append_eq_map {α β : Type} (f : α → β) (l : List α) :
    l.foldl (fun acc m => acc ++ [f m]) [] = l.map f := by
  have key : ∀ (l : List α) (acc : List β),
      l.foldl (fun acc m => acc ++ [f m]) acc = acc ++ l.map f := by
    intro l
    induction l with
    | nil => intro acc; simp
    | cons x xs ih => intro acc; simp [ih]
  simpa using key l []

/-- C7: the history formatter renders exactly the last 12 messages (all of
them when fewer), in original oldest-first order (a suffix of the input),
each as "USER: ..." or "ASSISTANT: ..." with content stripped, joined by
newlines; with 20 input messages exactly the last 12 are retained. -/
theorem format_history_keeps_last_twelve (messages : List ChatMessage) :
    formatHistory messages 12 =
      String.intercalate "\n"
        ((messages.drop (messages.length - 12)).map renderMessage) ∧
    (messages.drop (messages.length - 12)).length = min messages.length 12 ∧
    messages.drop (messages.length - 12) <:+ messages ∧
    (messages.length = 20 →
      messages.drop (messages.length - 12) = messages.drop 8) := by
  refine ⟨?_, ?_, ?_, ?_⟩
  · simp only [formatHistory]
    rw [foldl_append_eq_map]
  · rw [List.length_drop]
    omega
  · exact List.drop_suffix _ _
  · intro h
    rw [h]

/-- C7 witness: a concrete 20-message history retains the last 12. -/
theorem format_history_keeps_last_twelve_witness :
    (List.replicate 20 msgHi).drop ((List.replicate 20 msgHi).length - 12) =
      (List.replicate 20 msgHi).drop 8 :=
  (format_history_keeps_last_twelve (List.replicate 20 msgHi)).2.2.2 (by simp)

/-! The intent classifier's fallback policy. -/

/-- Replicated lists count as all-or-nothing. -/
theorem countP_replicate {α : Type} (p : α → Bool) (n : Nat) (a : α) :
    (List.replicate n a).countP p = if p a then n else 0 := by
  induction n with
  | zero => simp
  | succ m ih =>
    rw [List.replicate_succ, List.countP_cons, ih]
    cases hpa : p a <;> simp [hpa]

/-- C8: the fallback classifier path runs at most once (at most 3 fallback
calls ever happen), and only after the primary path has exhausted all 3 of
its attempts; if the fallback also exhausts its retries, the last fallback
error propagates to the caller of `classify_intent`. -/
theorem classify_intent_fallback_once (env : Env) (text : String)
    (cp cf : Nat → Nat) :
    ((∀ n, env.intent_agent_primary (classifyPrompt text) n = Except.error (cp n)) →
      (∀ n, env.intent_agent_fallback (classifyPrompt text) n = Except.error (cf n)) →
      classifyIntent env text =
        (Except.error (AgentError.provider (cf 3)),
         ⟨List.replicate 3 (CallEvent.intentPrimaryCall (classifyPrompt text)) ++
            List.replicate 3 (CallEvent.intentFallbackCall (classifyPrompt text)),
          [2, 4, 6, 2, 4, 6]⟩)) ∧
    (classifyIntent env text).2.fallbackIntentCalls ≤ 3 := by
  constructor
  · intro hp hf
    have hopp : ∀ n, runIntentAgent env.intent_agent_primary (classifyPrompt text) n =
        Except.error (AgentError.provider (cp n)) := by
      intro n
      simp only [runIntentAgent, hp n]
    have hopf : ∀ n, runIntentAgent env.intent_agent_fallback (classifyPrompt text) n =
        Except.error (AgentError.provider (cf n)) := by
      intro n
      simp only [runIntentAgent, hf n]
    have h1 : runWithRetries (runIntentAgent env.intent_agent_primary (classifyPrompt text)) 3 =
        ⟨RetryOutcome.err (AgentError.provider (cp 3)), 3,
         [backoffDelay 1, backoffDelay 2, backoffDelay 3]⟩ :=
      retry3_fail3 _ _ _ _ (hopp 1) (hopp 2) (hopp 3)
    have h2 : runWithRetries (runIntentAgent env.intent_agent_fallback (classifyPrompt text)) 3 =
        ⟨RetryOutcome.err (AgentError.provider (cf 3)), 3,
         [backoffDelay 1, backoffDelay 2, backoffDelay 3]⟩ :=
      retry3_fail3 _ _ _ _ (hopf 1) (hopf 2) (hopf 3)
    simp [classifyIntent, h1, h2, backoffDelay_one, backoffDelay_two, backoffDelay_three]
  · have hcount : ∀ (k j : Nat) (p q : String),
        (Trace.mk (List.replicate k (CallEvent.intentPrimaryCall p) ++
          List.replicate j (CallEvent.intentFallbackCall q))
          ((runWithRetries (runIntentAgent env.intent_agent_primary (classifyPrompt text)) 3).sleeps ++
            (runWithRetries (runIntentAgent env.intent_agent_fallback (classifyPrompt text)) 3).sleeps)).fallbackIntentCalls = j := by
      intro k j p q
      simp [Trace.fallbackIntentCalls, List.countP_append, countP_replicate,
        CallEvent.isIntentFallback]
    simp only [classifyIntent]
    split
    · simp [Trace.fallbackIntentCalls, countP_replicate, CallEvent.isIntentFallback]
    · split
      · rw [hcount]
        exact runWithRetries_calls_le _ 3
      · rw [hcount]
        exact runWithRetries_calls_le _ 3
      · rw [hcount]
        exact runWithRetries_calls_le _ 3

/-- C8 witness: both classifier paths always failing. -/
theorem classify_intent_fallback_once_witness :
    classifyIntent envIntentFail "hi" =
      (Except.error (AgentError.provider 6),
       ⟨List.replicate 3 (CallEvent.intentPrimaryCall (classifyPrompt "hi")) ++
          List.replicate 3 (CallEvent.intentFallbackCall (classifyPrompt "hi")),
        [2, 4, 6, 2, 4, 6]⟩) :=
  (classify_intent_fallback_once envIntentFail "hi" (fun _ => 5) (fun _ => 6)).1
    (fun _ => rfl) (fun _ => rfl)

/-! Totality of the mode-instruction lookup. -/

/-- An intent-agent run never raises the missing-key error. -/
theorem runIntentAgent_no_missingKey (agent : String → Nat → Except Nat RawIntent)
    (prompt : String) (n : Nat) :
    runIntentAgent agent prompt n ≠ Except.error AgentError.missingKey := by
  unfold runIntentAgent
  split
  · simp
  · split <;> simp

/-- A main-agent run never raises the missing-key error. -/
theorem runMainAgent_no_missingKey (agent : String → Nat → Except Nat RawAgentResponse)
    (prompt : String) (n : Nat) :
    runMainAgent agent prompt n ≠ Except.error AgentError.missingKey := by
  unfold runMainAgent
  split
  · simp
  · split <;> simp

/-- The classifier never raises the missing-key error. -/
theorem classifyIntent_no_missingKey (env : Env) (text : String) :
    (classifyIntent env text).1 ≠ Except.error AgentError.missingKey := by
  intro h
  simp only [classifyIntent] at h
  split at h
  · simp at h
  · split at h
    · simp at h
    · rename_i heq
      obtain rfl : _ = AgentError.missingKey := by simpa using h
      obtain ⟨n, hn⟩ := runWithRetries_err_origin _ 3 _ heq
      exact runIntentAgent_no_missingKey _ _ n hn
    · simp at h

/-- Mode resolution never raises the missing-key error. -/
theorem resolveMode_no_missingKey (env : Env) (mode : Mode) (latest : String) :
    (resolveMode env mode latest).1 ≠ Except.error AgentError.missingKey := by
  intro h
  unfold resolveMode at h
  split at h
  · split at h
    · simp at h
    · rename_i e tr heq
      obtain rfl : e = AgentError.missingKey := by simpa using h
      exact classifyIntent_no_missingKey env latest (by rw [heq])
  · simp at h

/-- Generation never raises the missing-key error. -/
theorem generateResponse_no_missingKey (env : Env) (prompt : String) :
    (generateResponse env prompt).1 ≠ Except.error AgentError.missingKey := by
  intro h
  simp only [generateResponse] at h
  split at h
  · simp at h
  · split at h
    · simp at h
    · rename_i heq
      obtain rfl : _ = AgentError.missingKey := by simpa using h
      obtain ⟨n, hn⟩ := runWithRetries_err_origin _ 3 _ heq
      exact runMainAgent_no_missingKey _ _ n hn
    · simp at h

/-- C10: the resolved mode inside `respond` is always one of the four modes
of the enum, so the four-key mode-instruction mapping always has an entry
for it and `respond` can never fail with a missing-key error. -/
theorem mode_instruction_total :
    (∀ m : Mode, (lookupInstruction m).isSome = true) ∧
    (∀ (env : Env) (messages : List ChatMessage) (mode : Mode),
      (respond env messages mode).1 ≠ Except.error AgentError.missingKey) := by
  constructor
  · exact lookupInstruction_isSome
  · intro env messages mode h
    unfold respond at h
    split at h
    · simp at h
    · rename_i lastMsg hlast
      split at h
      · split at h
        · rename_i resolvedMode tr hres
          split at h
          · rename_i instr hinstr
            exact generateResponse_no_missingKey env _ (by simpa using h)
          · rename_i hinstr
            have := lookupInstruction_isSome resolvedMode
            rw [hinstr] at this
            cases this
        · rename_i e tr hres
          obtain rfl : e = AgentError.missingKey := by simpa using h
          exact resolveMode_no_missingKey env mode _ (by rw [hres])
      · simp at h

/-- C10 witness: concrete applications of both parts. -/
theorem mode_instruction_total_witness :
    (lookupInstruction Mode.auto).isSome = true ∧
    (respond envPrimaryOk [msgHi] Mode.plan).1 ≠ Except.error AgentError.missingKey :=
  ⟨mode_instruction_total.1 Mode.auto,
   mode_instruction_total.2 envPrimaryOk [msgHi] Mode.plan⟩

end PlacementSprint
